import Mathlib

set_option maxRecDepth 8000

/-!
Verification of `jenkins/bootstrap.py` (CI job bootstrapper).

The development shallowly embeds the Python source:

* `pjoin2` / `pjoin` embed POSIX `os.path.join` exactly (an absolute second
  component resets the result; an empty or slash-terminated accumulator is
  extended without an extra separator).  Since the source only ever joins
  with the literal affix `'/'`, the `startswith('/')` / `endswith('/')`
  tests are embedded by the reducible helpers `startsWithSlash` /
  `endsWithSlash`.
* `CIPath` / `PRPath` embed the two path-scheme classes as pure functions.
* `Json` is a minimal JSON value type with Python truthiness (`Json.truthy`)
  and `isinstance(-, dict)` (`Json.isDict`).
* `Subprocess` embeds the output-capture/exit-code contract of the process
  runner as a pure function of the lines read from the child's stdout and
  its exit code.
* The orchestrator (`Bootstrap`) is embedded in a writer/except monad `M`:
  a run maps an initial event trace to an `Except BErr` outcome and the
  final trace of external effects (`Op`).  All interaction with the outside
  world (exit codes of external commands, `os.path.isfile`/`isdir`,
  file contents, the remote result-cache document) is supplied by a `World`
  oracle, so every claim can be stated for all worlds or evaluated at a
  concrete one.
* Python raising an uncaught exception makes the interpreter exit with a
  nonzero status; `mainExit` reflects the `__main__` block: exit 1 on an
  uncaught error, 0 otherwise.
-/

/-- Truthiness of an optional string argument: Python `bool(branch)` is
`False` for `None` and for the empty string (`bootstrap.py:93`). -/
def truthyStr : Option String → Bool
  | none => false
  | some s => s ≠ ""

/-- Truthiness of an optional integer argument: Python `bool(pull)` is
`False` for `None` and for `0` (`bootstrap.py:93`). -/
def truthyInt : Option Int → Bool
  | none => false
  | some n => n ≠ 0

/-- Does the string begin with the character `'/'`?  Embeds Python
`b.startswith('/')` as used by `posixpath.join`. -/
def startsWithSlash (s : String) : Bool :=
  match s.data with
  | [] => false
  | c :: _ => c = '/'

/-- Does the string end with the character `'/'`?  Embeds Python
`b.endswith('/')` as used by `posixpath.join`. -/
def endsWithSlash (s : String) : Bool :=
  match s.data.getLast? with
  | none => false
  | some c => c = '/'

/-- One step of POSIX `os.path.join`: an absolute second component resets
the accumulated path, an empty or slash-terminated accumulator is extended
with no separator, otherwise a single `'/'` is inserted. -/
def pjoin2 (a b : String) : String :=
  if startsWithSlash b then b
  else if (a == "") || endsWithSlash a then a ++ b
  else a ++ "/" ++ b

/-- `os.path.join(a, *ps)` as a left fold of `pjoin2`. -/
def pjoin (a : String) (ps : List String) : String :=
  ps.foldl pjoin2 a

/-- The full set of object-store paths computed for one build
(fields named exactly as the attributes of `CIPath` / `PRPath`).
`build_path`, `build_link` and `build_result_cache` are absent (`None`,
class-level attributes) in the CI variant. -/
structure PathSet where
  artifacts : String
  started : String
  finished : String
  build_log : String
  latest : String
  result_cache : String
  build_latest : String
  build_path : Option String
  build_link : Option String
  build_result_cache : Option String

/-- Base prefix of the CI (post-merge) path variant (`CIPath.base`). -/
def ciBase : String := "gs://kubernetes-jenkins/logs"

/-- Base prefix of the pull-request path variant (`PRPath.base`). -/
def prBase : String := "gs://kubernetes-jenkins/pr-logs"

/-- `CIPath.__init__` (`bootstrap.py:251-264`): `build_latest` is assigned
the very same value as `latest`, and `build_link` / `build_result_cache`
stay `None`. -/
def CIPath (job build : String) : PathSet :=
  let latest := pjoin ciBase [job, "latest-build.txt"]
  { artifacts := pjoin ciBase [job, build, "artifacts"]
    started := pjoin ciBase [job, build, "started.json"]
    finished := pjoin ciBase [job, build, "finished.json"]
    build_log := pjoin ciBase [job, build, "build-log.txt"]
    latest := latest
    result_cache := pjoin ciBase [job, "jobResultsCache.json"]
    build_latest := latest
    build_path := none
    build_link := none
    build_result_cache := none }

/-- `PRPath.__init__` (`bootstrap.py:267-287`); `pull` is the argument
`str(pull)` that `Bootstrap` passes. -/
def PRPath (job build pull : String) : PathSet :=
  let bp := pjoin prBase ["pull", pull, job, build]
  { artifacts := pjoin2 bp "artifacts"
    started := pjoin2 bp "started.json"
    finished := pjoin2 bp "finished.json"
    build_log := pjoin2 bp "build-log.txt"
    latest := pjoin prBase ["directory", job, "latest-build.txt"]
    result_cache := pjoin prBase ["directory", job, "jobResultsCache.json"]
    build_latest := pjoin prBase ["pull", pull, job, "latest-build.txt"]
    build_path := some bp
    build_link := some (pjoin prBase ["directory", job, build ++ ".txt"])
    build_result_cache := some (pjoin prBase ["pull", pull, job, "jobResultsCache.json"]) }

/-- Minimal JSON value type for the documents the source manipulates. -/
inductive Json where
  | null : Json
  | jbool : Bool → Json
  | num : Int → Json
  | str : String → Json
  | arr : List Json → Json
  | obj : List (String × Json) → Json

/-- Python truthiness of a JSON value (`bool(val)`): `None`, `False`, `0`,
`''`, `[]` and the empty dict are falsy. -/
def Json.truthy : Json → Bool
  | Json.null => false
  | Json.jbool b => b
  | Json.num n => n ≠ 0
  | Json.str s => s ≠ ""
  | Json.arr xs => !xs.isEmpty
  | Json.obj fields => !fields.isEmpty

/-- Python `isinstance(val, dict)`. -/
def Json.isDict : Json → Bool
  | Json.obj _ => true
  | _ => false

/-- Outcome of `gsutil cat` plus `json.loads` at the head of `AppendBuild`
(`bootstrap.py:160-164`): the fetch subprocess may fail
(`CalledProcessError`), the document may fail to parse (`ValueError`), or
it parses.  A document parsing to a list is the domain the source handles;
a parse to a non-list would crash `cache.append` uncaught, and never
arises in documents this program itself writes. -/
inductive CatResult where
  | fetchFail : CatResult
  | unparseable : CatResult
  | parsed : List Json → CatResult

/-- The entry `AppendBuild` appends (`bootstrap.py:165-170`), with the
keys in source order. -/
def buildEntry (build version : String) (passed : Bool) : Json :=
  Json.obj [("version", Json.str version),
            ("buildnumber", Json.str build),
            ("passed", Json.jbool passed),
            ("result", Json.str (if passed then "SUCCESS" else "FAILURE"))]

/-- Python `cache[-200:]` generalized: the last `n` elements. -/
def lastN (n : Nat) (l : List α) : List α := l.drop (l.length - n)

/-- The pure core of `AppendBuild` (`bootstrap.py:159-171`): a failed or
unparseable fetch yields the empty history, the new entry is appended and
the list truncated to the most recent 200 entries. -/
def appendBuildCache (prior : CatResult) (build version : String) (passed : Bool) :
    List Json :=
  let cache :=
    match prior with
    | CatResult.parsed l => l
    | _ => []
  lastN 200 (cache ++ [buildEntry build version passed])

/-- The payload of `subprocess.CalledProcessError(code, cmd, lines)` raised
by `Subprocess` (`bootstrap.py:88`). -/
structure CalledProcessError where
  returncode : Nat
  cmd : List String
  output : Option String

/-- Pure model of `Subprocess` (`bootstrap.py:53-89`) as a function of the
command, the lines read from the child's stdout (each exactly as
`readline` returned it), the exit code and the `output` capture flag:
stdout lines are accumulated only when capture is requested
(`bootstrap.py:76-77`), `lines = output and '\n'.join(out)` is `None`
without capture, and a nonzero exit code raises `CalledProcessError`
carrying the code, the command and the captured output. -/
def Subprocess (cmd stdoutLines : List String) (code : Nat) (output : Bool) :
    Except CalledProcessError (Option String) :=
  let out : List String := if output then stdoutLines else []
  let lines : Option String := if output then some (String.intercalate "\n" out) else none
  if code ≠ 0 then Except.error ⟨code, cmd, lines⟩ else Except.ok lines

/-- The `finished.json` record (`bootstrap.py:196-211`): result label,
pass/fail boolean, and the optional merged metadata blob (the `timestamp`
field is wall-clock time, not modelled). -/
structure FinishedRecord where
  result : String
  passed : Bool
  metadata : Option Json

/-- One external effect of the orchestrator, in the order the source
performs them.  Every constructor corresponds to one subprocess
invocation or `os.chdir`. -/
inductive Op where
  | gitInit (repo : String)
  | chdir (dir : String)
  | gitFetch (url ref : String)
  | gitCheckout
  | versionScript
  | gcloudActivate (keyfile : String)
  | uploadStarted (path : String)
  | runJob (job : String)
  | uploadArtifacts (dest orig : String)
  | uploadText (path txt : String)
  | gsCat (path : String)
  | uploadCache (path : String) (cache : List Json)
  | uploadFinished (path : String) (record : FinishedRecord)
  | copyFile (dest orig : String)

/-- Uncaught Python exceptions of the run: `ValueError` from the
branch/pull check, `KeyError` from `os.environ['HOME']`, the two
`IOError`s of `SetupCredentials`, and `CalledProcessError` from any
external command whose failure is not caught. -/
inductive BErr where
  | badArgs : BErr
  | keyError (key : String) : BErr
  | missingCred (path : String) : BErr
  | procFail (op : Op) : BErr

/-- Does the error belong to checkout or credential setup?  These are the
only places that can raise `badArgs`, `keyError`, `missingCred`, or a
`CalledProcessError` of a git or gcloud command. -/
def BErr.fromCheckoutOrSetup : BErr → Bool
  | BErr.badArgs => true
  | BErr.keyError _ => true
  | BErr.missingCred _ => true
  | BErr.procFail (Op.gitInit _) => true
  | BErr.procFail (Op.chdir _) => true
  | BErr.procFail (Op.gitFetch _ _) => true
  | BErr.procFail Op.gitCheckout => true
  | BErr.procFail (Op.gcloudActivate _) => true
  | BErr.procFail _ => false

/-- Process environment (`os.environ`). -/
def Env : Type := String → Option String

/-- `os.environ[k] = v`. -/
def Env.set (e : Env) (k v : String) : Env :=
  fun k' => if k' = k then some v else e k'

/-- `os.environ.setdefault(k, v)`. -/
def Env.setdefault (e : Env) (k v : String) : Env :=
  match e k with
  | some _ => e
  | none => Env.set e k v

/-- Oracle for everything outside the process: exit codes of external
commands, the local filesystem, the remote result-cache documents, the
short hostname, the autogenerated build id and the absolute path of
`build-log.txt`.  `fileJson p` is the result of reading and JSON-parsing
the file at `p` (`none` for `IOError` or `ValueError`). -/
structure World where
  ok : Op → Bool
  isfile : String → Bool
  isdir : String → Bool
  fileText : String → String
  fileJson : String → Option Json
  catResult : String → CatResult
  autogenBuild : String
  hostname : String
  versionScriptOut : String
  buildLogPath : String

/-- A run in the orchestration monad: from an initial effect trace to an
outcome and the extended trace.  Effects stay recorded when an exception
is raised after they happened. -/
def M (α : Type) : Type := List Op → Except BErr α × List Op

/-- Sequencing that short-circuits on an uncaught exception but keeps the
trace of effects performed so far. -/
def M.bind {α β : Type} (x : M α) (f : α → M β) : M β := fun t =>
  match x t with
  | (Except.ok a, t') => f a t'
  | (Except.error e, t') => (Except.error e, t')

/-- Pure value, no effect. -/
def M.pure {α : Type} (a : α) : M α := fun t => (Except.ok a, t)

/-- Raise an exception. -/
def M.throw {α : Type} (e : BErr) : M α := fun t => (Except.error e, t)

/-- Record an effect that cannot fail (`os.chdir`, or a subprocess whose
failure is caught by the caller). -/
def M.emit (op : Op) : M Unit := fun t => (Except.ok (), t ++ [op])

/-- Run one external command via `Subprocess`: the invocation is recorded,
and a nonzero exit raises `CalledProcessError` (modelled as
`BErr.procFail`). -/
def M.step (w : World) (op : Op) : M Unit := fun t =>
  ((if w.ok op then Except.ok () else Except.error (BErr.procFail op)), t ++ [op])

/-- The remote URL convention (`bootstrap.py:105`). -/
def github (repo : String) : String := "https://github.com/" ++ repo

/-- `Checkout` (`bootstrap.py:92-107`): the mutual-exclusion check on the
truthiness of `branch` and `pull` comes first; then `git init`,
`os.chdir`, `git fetch --tags <url> <ref>` and `git checkout FETCH_HEAD`,
each propagating a nonzero exit unchanged. -/
def Checkout (w : World) (repo : String) (branch : Option String) (pull : Option Int) :
    M Unit :=
  if truthyStr branch = truthyInt pull then M.throw BErr.badArgs
  else
    let ref := if truthyInt pull
      then "+refs/pull/" ++ toString (pull.getD 0) ++ "/merge"
      else branch.getD ""
    M.bind (M.step w (Op.gitInit repo)) (fun _ =>
    M.bind (M.emit (Op.chdir repo)) (fun _ =>
    M.bind (M.step w (Op.gitFetch (github repo) ref)) (fun _ =>
    M.step w Op.gitCheckout)))

/-- `Version` (`bootstrap.py:227-248`): prefer the `version` file, else run
the version script (whose failure propagates), else `'unknown'`. -/
def Version (w : World) : M String :=
  if w.isfile "version" then M.pure ((w.fileText "version").trim)
  else if w.isfile "hack/lib/version.sh" then
    M.bind (M.step w Op.versionScript) (fun _ => M.pure (w.versionScriptOut.trim))
  else M.pure "unknown"

/-- The five credential path variables defaulted by `SetupCredentials`. -/
def credentialVars : List String :=
  ["JENKINS_GCE_SSH_PRIVATE_KEY_FILE",
   "JENKINS_GCE_SSH_PUBLIC_KEY_FILE",
   "JENKINS_AWS_SSH_PRIVATE_KEY_FILE",
   "JENKINS_AWS_SSH_PUBLIC_KEY_FILE",
   "GOOGLE_APPLICATION_CREDENTIALS"]

/-- The home-directory default `SetupCredentials` computes for each
credential variable (`bootstrap.py:298-318`). -/
def credDefault (home k : String) : String :=
  if k = "JENKINS_GCE_SSH_PRIVATE_KEY_FILE" then pjoin2 home ".ssh/google_compute_engine"
  else if k = "JENKINS_GCE_SSH_PUBLIC_KEY_FILE" then pjoin2 home ".ssh/google_compute_engine.pub"
  else if k = "JENKINS_AWS_SSH_PRIVATE_KEY_FILE" then pjoin2 home ".ssh/kube_aws_rsa"
  else if k = "JENKINS_AWS_SSH_PUBLIC_KEY_FILE" then pjoin2 home ".ssh/kube_aws_rsa.pub"
  else pjoin2 home "service-account.json"

/-- `SetupCredentials` (`bootstrap.py:298-346`): read `HOME` (a missing
key raises `KeyError`), `setdefault` the five credential variables to
their home-directory defaults, require the GCE private key and the
service-account file to exist (`IOError` otherwise), redirect
`WORKSPACE`/`HOME`/`CLOUDSDK_CONFIG` to the current directory, and
activate the service account via `gcloud`.  Returns the updated
environment.  The `setdefault` block and the post-`HOME` body are split
out so runs can be analysed per stage. -/
def setdefaultCreds (env : Env) (home : String) : Env :=
  let env := Env.setdefault env "JENKINS_GCE_SSH_PRIVATE_KEY_FILE"
    (pjoin2 home ".ssh/google_compute_engine")
  let env := Env.setdefault env "JENKINS_GCE_SSH_PUBLIC_KEY_FILE"
    (pjoin2 home ".ssh/google_compute_engine.pub")
  let env := Env.setdefault env "JENKINS_AWS_SSH_PRIVATE_KEY_FILE"
    (pjoin2 home ".ssh/kube_aws_rsa")
  let env := Env.setdefault env "JENKINS_AWS_SSH_PUBLIC_KEY_FILE"
    (pjoin2 home ".ssh/kube_aws_rsa.pub")
  Env.setdefault env "GOOGLE_APPLICATION_CREDENTIALS"
    (pjoin2 home "service-account.json")

/-- The body of `SetupCredentials` once `os.environ['HOME']` resolved. -/
def setupCredsWithHome (w : World) (cwd : String) (env : Env) (home : String) : M Env :=
  let env := setdefaultCreds env home
  let gceKey := (env "JENKINS_GCE_SSH_PRIVATE_KEY_FILE").getD ""
  let saKey := (env "GOOGLE_APPLICATION_CREDENTIALS").getD ""
  if w.isfile gceKey = false then M.throw (BErr.missingCred gceKey)
  else if w.isfile saKey = false then M.throw (BErr.missingCred saKey)
  else
    let env := Env.set (Env.set (Env.set env "WORKSPACE" cwd) "HOME" cwd)
      "CLOUDSDK_CONFIG" (cwd ++ "/.config/gcloud")
    M.bind (M.step w (Op.gcloudActivate saKey)) (fun _ => M.pure env)

def SetupCredentials (w : World) (cwd : String) (env : Env) : M Env :=
  match env "HOME" with
  | none => M.throw (BErr.keyError "HOME")
  | some home => setupCredsWithHome w cwd env home

/-- `Build` (`bootstrap.py:290-295`): `BUILD_NUMBER` is defaulted to the
autogenerated id when absent; the run's build id is the resulting value. -/
def Build (w : World) (env : Env) : Env × String :=
  match env "BUILD_NUMBER" with
  | some b => (env, b)
  | none => (Env.set env "BUILD_NUMBER" w.autogenBuild, w.autogenBuild)

/-- `Node` (`bootstrap.py:221-224`): `NODE_NAME` is defaulted to the short
hostname when absent. -/
def Node (w : World) (env : Env) : Env × String :=
  match env "NODE_NAME" with
  | some n => (env, n)
  | none => (Env.set env "NODE_NAME" w.hostname, w.hostname)

/-- `Start` (`bootstrap.py:110-117`): upload the started record (its
timestamp/node/version payload is not needed by any claim and is not
recorded in the event). -/
def Start (w : World) (paths : PathSet) : M Unit :=
  M.step w (Op.uploadStarted paths.started)

/-- The metadata merge of `Finish` (`bootstrap.py:202-210`): the probed
path is `os.path.join(paths.artifacts, 'metadata.json')` — note that
`paths.artifacts` is the REMOTE object-store path, exactly as in the
source.  A read or parse failure yields `val = None`; the value is merged
only when it is truthy and a dict. -/
def finishMetadata (w : World) (artifactsPath : String) : Option Json :=
  let mpath := pjoin2 artifactsPath "metadata.json"
  if w.isfile mpath then
    match w.fileJson mpath with
    | none => none
    | some val => if val.truthy && val.isDict then some val else none
  else none

/-- The finished record `Finish` uploads (`bootstrap.py:196-211`). -/
def finishedRecord (w : World) (success : Bool) (artifactsPath : String) :
    FinishedRecord :=
  { result := if success then "SUCCESS" else "FAILURE"
    passed := success
    metadata := finishMetadata w artifactsPath }

/-- `AppendBuild` (`bootstrap.py:159-172`): `gsutil cat` of the prior
document (its failure is caught, so the invocation is recorded with
`M.emit` and its outcome folded into `World.catResult`), then upload of
the updated history (`UploadJson`, whose failure propagates). -/
def AppendBuild (w : World) (path build version : String) (passed : Bool) : M Unit :=
  M.bind (M.emit (Op.gsCat path)) (fun _ =>
  M.step w (Op.uploadCache path (appendBuildCache (w.catResult path) build version passed)))

/-- `Finish` (`bootstrap.py:176-211`): artifact-tree upload when the local
artifact directory exists; the latest-build pointer(s) — the source
iterates the set literal of `paths.latest` and `paths.build_latest`,
which deduplicates coinciding paths (the iteration order of a two-element
set is fixed here to `latest` first); the link file when the variant
defines one; the rolling result histories; and the finished record. -/
def Finish (w : World) (paths : PathSet) (success : Bool)
    (artifacts build version : String) : M Unit :=
  M.bind (if w.isdir artifacts
            then M.step w (Op.uploadArtifacts paths.artifacts artifacts)
            else M.pure ()) (fun _ =>
  M.bind (if paths.build_latest = paths.latest
            then M.step w (Op.uploadText paths.latest build)
            else M.bind (M.step w (Op.uploadText paths.latest build)) (fun _ =>
                 M.step w (Op.uploadText paths.build_latest build))) (fun _ =>
  M.bind (match paths.build_link with
          | some link => M.step w (Op.uploadText link (paths.build_path.getD ""))
          | none => M.pure ()) (fun _ =>
  M.bind (AppendBuild w paths.result_cache build version success) (fun _ =>
  M.bind (match paths.build_result_cache with
          | some p => AppendBuild w p build version success
          | none => M.pure ()) (fun _ =>
  M.step w (Op.uploadFinished paths.finished (finishedRecord w success paths.artifacts)))))))

/-- The job-runner step (`bootstrap.py:386-393`): the runner is invoked
and its `CalledProcessError` is caught, converted into the pass/fail
boolean — the only caught subprocess failure in the orchestrator. -/
def runJobStep (w : World) (job : String) : M Bool :=
  M.bind (M.emit (Op.runJob job)) (fun _ => M.pure (w.ok (Op.runJob job)))

/-- The tail of `Bootstrap` after credential setup (`bootstrap.py:384-398`):
started record, job runner (pass/fail captured), finish sequence, and the
final build-log copy. -/
def bootstrapAfterSetup (w : World) (job : String) (paths : PathSet)
    (build version : String) : M Unit :=
  M.bind (Start w paths) (fun _ =>
  M.bind (runJobStep w job) (fun success =>
  M.bind (Finish w paths success "_artifacts" build version) (fun _ =>
  M.step w (Op.copyFile paths.build_log w.buildLogPath))))

/-- The tail of `Bootstrap` after checkout (`bootstrap.py:374-398`):
version detection, credential setup, path scheme selection on the
truthiness of `pull`, `JOB_NAME`/`NODE_NAME` defaulting, then
`bootstrapAfterSetup`. -/
def bootstrapAfterCheckout (w : World) (env1 : Env) (job repo build : String)
    (pull : Option Int) : M Unit :=
  M.bind (Version w) (fun version =>
  M.bind (SetupCredentials w repo env1) (fun env2 =>
  let paths := if truthyInt pull
    then PRPath job build (toString (pull.getD 0))
    else CIPath job build
  let env3 := Env.setdefault env2 "JOB_NAME" job
  let _node := Node w env3
  bootstrapAfterSetup w job paths build version))

/-- `Bootstrap` (`bootstrap.py:366-398`): build id, checkout, then the
rest of the orchestration; the job runner's failure is the only caught
exception.  Logging setup has no modelled effect. -/
def Bootstrap (w : World) (env : Env) (job repo : String)
    (branch : Option String) (pull : Option Int) : M Unit :=
  let eb := Build w env
  M.bind (Checkout w repo branch pull) (fun _ =>
  bootstrapAfterCheckout w eb.1 job repo eb.2 pull)

/-- One whole run from the empty trace. -/
def BootstrapRun (w : World) (env : Env) (job repo : String)
    (branch : Option String) (pull : Option Int) : Except BErr Unit × List Op :=
  Bootstrap w env job repo branch pull []

/-- The process exit status of the `__main__` block (`bootstrap.py:401-408`):
`Bootstrap` is called and its return value ignored; Python exits 0 when no
exception escapes and 1 on an uncaught exception.  No `sys.exit` appears
anywhere in the source. -/
def mainExit (w : World) (env : Env) (job repo : String)
    (branch : Option String) (pull : Option Int) : Nat :=
  match (BootstrapRun w env job repo branch pull).1 with
  | Except.ok _ => 0
  | Except.error _ => 1

/-- Read a variable out of a setup outcome (`none` when setup raised). -/
def envGet (r : Except BErr Env) (k : String) : Option String :=
  match r with
  | Except.ok e => e k
  | Except.error _ => none

/-- Is the outcome a success? -/
def exceptOk {α : Type} : Except BErr α → Bool
  | Except.ok _ => true
  | Except.error _ => false

/-- Concrete oracle for evaluation: every external command succeeds, the
only local files are the two credential files under the home directory
`/h`, the artifact directory is absent, and the remote result cache is
absent (`gsutil cat` fails). -/
def wAllOk : World :=
  { ok := fun _ => true
    isfile := fun p =>
      (p == "/h/.ssh/google_compute_engine") || (p == "/h/service-account.json")
    isdir := fun _ => false
    fileText := fun _ => ""
    fileJson := fun _ => none
    catResult := fun _ => CatResult.fetchFail
    autogenBuild := "19700101-000000-0-1"
    hostname := "host"
    versionScriptOut := ""
    buildLogPath := "/workspace/build-log.txt" }

/-- Like `wAllOk`, but the job runner exits nonzero. -/
def wJobFail : World :=
  { wAllOk with
    ok := fun op =>
      match op with
      | Op.runJob _ => false
      | _ => true }

/-- Like `wAllOk`, but `git fetch` exits nonzero. -/
def wFetchFail : World :=
  { wAllOk with
    ok := fun op =>
      match op with
      | Op.gitFetch _ _ => false
      | _ => true }

/-- Like `wAllOk`, but the local artifact directory `_artifacts` exists and
holds a readable, well-formed JSON-object `metadata.json`. -/
def wMetaLocal : World :=
  { wAllOk with
    isdir := fun d => d == "_artifacts"
    isfile := fun p =>
      (p == "/h/.ssh/google_compute_engine") || (p == "/h/service-account.json") ||
      (p == "_artifacts/metadata.json")
    fileJson := fun p =>
      if p == "_artifacts/metadata.json"
        then some (Json.obj [("k", Json.num 1)])
        else none }

/-- Like `wAllOk`, but every `os.path.isfile` probe succeeds. -/
def wAllFiles : World := { wAllOk with isfile := fun _ => true }

/-- Concrete starting environment: `HOME` and `BUILD_NUMBER` set. -/
def envHome : Env := fun k =>
  if k = "HOME" then some "/h"
  else if k = "BUILD_NUMBER" then some "42"
  else none

/-- Concrete starting environment with an external override for one of the
credential path variables. -/
def envCred : Env := fun k =>
  if k = "HOME" then some "/h"
  else if k = "JENKINS_AWS_SSH_PRIVATE_KEY_FILE" then some "/custom/aws-key"
  else none

/-- Sequencing after a successful first step. -/
theorem M.bind_eq_of_ok {α β : Type} {x : M α} {f : α → M β} {t tx : List Op} {a : α}
    (h : x t = (Except.ok a, tx)) : M.bind x f t = f a tx := by
  unfold M.bind
  rw [h]

/-- Sequencing after a failed first step. -/
theorem M.bind_eq_of_err {α β : Type} {x : M α} {f : α → M β} {t tx : List Op} {e : BErr}
    (h : x t = (Except.error e, tx)) : M.bind x f t = (Except.error e, tx) := by
  unfold M.bind
  rw [h]

/-- A successful external command. -/
theorem M.step_eq_ok {w : World} {op : Op} (t : List Op) (h : w.ok op = true) :
    M.step w op t = (Except.ok (), t ++ [op]) := by
  unfold M.step
  rw [if_pos h]

/-- A failed external command. -/
theorem M.step_eq_err {w : World} {op : Op} (t : List Op) (h : w.ok op = false) :
    M.step w op t = (Except.error (BErr.procFail op), t ++ [op]) := by
  unfold M.step
  rw [if_neg (by rw [h]; exact Bool.false_ne_true)]

/-- An external command appends exactly its own event. -/
theorem M.step_trace (w : World) (op : Op) (t : List Op) :
    (M.step w op t).2 = t ++ [op] := rfl

/-- The only error a command step can raise is its own process failure. -/
theorem M.step_err {w : World} {op : Op} {t : List Op} {e : BErr}
    (h : (M.step w op t).1 = Except.error e) : e = BErr.procFail op := by
  unfold M.step at h
  split at h
  · exact absurd h (by simp)
  · injection h with h2
    exact h2.symm

/-- Recording an uncheckable effect never raises. -/
theorem M.emit_err {op : Op} {t : List Op} {e : BErr}
    (h : (M.emit op t).1 = Except.error e) : False := by
  simp [M.emit] at h

/-- A pure value never raises. -/
theorem M.pure_err {α : Type} {a : α} {t : List Op} {e : BErr}
    (h : (M.pure a t).1 = Except.error e) : False := by
  simp [M.pure] at h

/-- Error analysis of a sequence: if the whole sequence raised `e`, then
either the first step raised it, or the first step succeeded and the
continuation raised it. -/
theorem M.bind_err {α β : Type} {x : M α} {f : α → M β} {t : List Op} {e : BErr}
    {P : BErr → Prop}
    (h : (M.bind x f t).1 = Except.error e)
    (hx : ∀ e1, (x t).1 = Except.error e1 → P e1)
    (hf : ∀ a t1 e1, (f a t1).1 = Except.error e1 → P e1) : P e := by
  unfold M.bind at h
  rcases hxt : x t with ⟨rx, tx⟩
  rw [hxt] at h
  cases rx with
  | ok a => exact hf a tx e h
  | error e1 =>
    have he1 : e1 = e := by injection h with h2
    exact he1 ▸ hx e1 (by rw [hxt])

/-- Trace analysis of a sequence: an event of the whole sequence either
already comes from the first step, or the first step succeeded and the
event comes from the continuation run on the extended trace. -/
theorem M.bind_mem {α β : Type} {x : M α} {f : α → M β} {t : List Op} {op : Op}
    (h : op ∈ (M.bind x f t).2) :
    op ∈ (x t).2 ∨ ∃ a, (x t).1 = Except.ok a ∧ op ∈ (f a (x t).2).2 := by
  unfold M.bind at h
  rcases hxt : x t with ⟨rx, tx⟩
  rw [hxt] at h
  cases rx with
  | ok a => exact Or.inr ⟨a, rfl, h⟩
  | error e1 => exact Or.inl h

/-- Recording an uncheckable effect appends it and succeeds. -/
theorem M.emit_eq (op : Op) (t : List Op) :
    M.emit op t = (Except.ok (), t ++ [op]) := rfl

/-- Raising leaves the trace unchanged. -/
theorem M.throw_trace {α : Type} (e : BErr) (t : List Op) : (M.throw (α := α) e t).2 = t := rfl

/-- A pure value leaves the trace unchanged. -/
theorem M.pure_trace {α : Type} (a : α) (t : List Op) : (M.pure a t).2 = t := rfl

/-- Helper: the last 200 elements of a 201-element append. -/
theorem lastN_append_of_length (l : List Json) (h : l.length = 200) (e : Json) :
    lastN 200 (l ++ [e]) = l.tail ++ [e] := by
  unfold lastN
  have hle : (1 : Nat) ≤ l.length := by omega
  simp only [List.length_append, List.length_cons, List.length_nil, h]
  rw [show (200 + (0 + 1) - 200 : Nat) = 1 by omega]
  rw [List.drop_append_of_le_length hle, List.drop_one]

/-- C4: for a prior history of exactly 200 entries, `AppendBuild` produces
exactly 200 entries, with the new entry last, the oldest entry dropped and
all other entries preserved in order. -/
theorem appendBuild_at_cap (l : List Json) (h : l.length = 200)
    (b v : String) (p : Bool) :
    (appendBuildCache (CatResult.parsed l) b v p).length = 200 ∧
    appendBuildCache (CatResult.parsed l) b v p = l.tail ++ [buildEntry b v p] := by
  have hd : appendBuildCache (CatResult.parsed l) b v p = l.tail ++ [buildEntry b v p] := by
    unfold appendBuildCache
    exact lastN_append_of_length l h (buildEntry b v p)
  refine ⟨?_, hd⟩
  rw [hd]
  simp only [List.length_append, List.length_tail, List.length_cons, List.length_nil, h]

/-- Witness for `appendBuild_at_cap` at a concrete 200-entry history. -/
theorem appendBuild_at_cap_witness :
    (appendBuildCache (CatResult.parsed (List.replicate 200 Json.null)) "b0" "v0" true).length = 200 ∧
    appendBuildCache (CatResult.parsed (List.replicate 200 Json.null)) "b0" "v0" true =
      (List.replicate 200 Json.null).tail ++ [buildEntry "b0" "v0" true] :=
  appendBuild_at_cap (List.replicate 200 Json.null) (by simp) "b0" "v0" true

/-- C5: when the prior remote document is absent (the `gsutil cat`
subprocess failed) or unparseable, `AppendBuild` does not fail — the
failure is caught and treated as the empty history — and the history it
uploads holds exactly the one new entry. -/
theorem appendBuild_empty_prior (w : World) (path b v : String) (p : Bool)
    (t : List Op)
    (h : w.catResult path = CatResult.fetchFail ∨
         w.catResult path = CatResult.unparseable) :
    appendBuildCache (w.catResult path) b v p = [buildEntry b v p] ∧
    Op.uploadCache path [buildEntry b v p] ∈ (AppendBuild w path b v p t).2 := by
  have h1 : appendBuildCache (w.catResult path) b v p = [buildEntry b v p] := by
    rcases h with h | h <;> rw [h] <;> rfl
  refine ⟨h1, ?_⟩
  unfold AppendBuild
  rw [M.bind_eq_of_ok (M.emit_eq _ _), M.step_trace, h1]
  simp

/-- Witness for `appendBuild_empty_prior` at a failed fetch. -/
theorem appendBuild_empty_prior_witness :
    appendBuildCache (wAllOk.catResult "cache-path") "b0" "v0" true =
      [buildEntry "b0" "v0" true] ∧
    Op.uploadCache "cache-path" [buildEntry "b0" "v0" true] ∈
      (AppendBuild wAllOk "cache-path" "b0" "v0" true []).2 :=
  appendBuild_empty_prior wAllOk "cache-path" "b0" "v0" true [] (Or.inl rfl)

/-- C8: with output capture requested and exit code zero, `Subprocess`
returns the accumulated stdout lines joined by newlines; with a nonzero
exit code it raises `CalledProcessError` carrying the code, the command
and the captured output (or `None` without capture). -/
theorem subprocess_capture_and_failure (cmd ls : List String) (code : Nat)
    (output : Bool) (h : code ≠ 0) :
    Subprocess cmd ls 0 true = Except.ok (some (String.intercalate "\n" ls)) ∧
    Subprocess cmd ls code output =
      Except.error ⟨code, cmd, if output then some (String.intercalate "\n" ls) else none⟩ := by
  constructor
  · rfl
  · cases output <;> simp [Subprocess, h]

/-- Witness for `subprocess_capture_and_failure` at exit code 2. -/
theorem subprocess_capture_and_failure_witness :
    Subprocess ["x"] ["a", "b"] 0 true = Except.ok (some (String.intercalate "\n" ["a", "b"])) ∧
    Subprocess ["x"] ["a", "b"] 2 true =
      Except.error ⟨2, ["x"], if true then some (String.intercalate "\n" ["a", "b"]) else none⟩ :=
  subprocess_capture_and_failure ["x"] ["a", "b"] 2 true (by decide)



/-- Helper: with a valid branch/pull selection, `Checkout` never raises the
argument error (its only other failures are git subprocess errors). -/
theorem checkout_no_badargs_of_valid (w : World) (repo : String)
    (branch : Option String) (pull : Option Int) (t : List Op)
    (h : ¬ truthyStr branch = truthyInt pull) :
    (Checkout w repo branch pull t).1 ≠ Except.error BErr.badArgs := by
  intro hc
  unfold Checkout at hc
  rw [if_neg h] at hc
  have hP : ∃ op, BErr.badArgs = BErr.procFail op := by
    refine M.bind_err (P := fun e => ∃ op, e = BErr.procFail op) hc
      (fun e1 he1 => ⟨_, M.step_err he1⟩) (fun a1 t1 e1 he1 => ?_)
    refine M.bind_err (P := fun e => ∃ op, e = BErr.procFail op) he1
      (fun e2 he2 => absurd (M.emit_err he2) id) (fun a2 t2 e2 he2 => ?_)
    exact M.bind_err (P := fun e => ∃ op, e = BErr.procFail op) he2
      (fun e3 he3 => ⟨_, M.step_err he3⟩)
      (fun a3 t3 e3 he3 => ⟨_, M.step_err he3⟩)
  rcases hP with ⟨op, hop⟩
  exact BErr.noConfusion hop

/-- C6: whenever branch and pull are both set or neither is set (in the
source's truthiness sense: a `None` or empty branch and a `None` or zero
pull count as absent), `Checkout` raises the argument `ValueError` before
any subprocess is invoked or any filesystem or network action occurs: the
effect trace of the failed call is empty. -/
theorem checkout_arg_error_before_effects (w : World) (repo : String)
    (branch : Option String) (pull : Option Int)
    (h : (truthyStr branch = true ∧ truthyInt pull = true) ∨
         (truthyStr branch = false ∧ truthyInt pull = false)) :
    (Checkout w repo branch pull []).1 = Except.error BErr.badArgs ∧
    (Checkout w repo branch pull []).2 = [] := by
  have he : truthyStr branch = truthyInt pull := by
    rcases h with ⟨h1, h2⟩ | ⟨h1, h2⟩ <;> rw [h1, h2]
  unfold Checkout
  rw [if_pos he]
  exact ⟨rfl, rfl⟩

/-- Witness for `checkout_arg_error_before_effects`: both `--branch=b` and
`--pull=5` given. -/
theorem checkout_arg_error_before_effects_witness :
    (Checkout wAllOk "r" (some "b") (some 5) []).1 = Except.error BErr.badArgs ∧
    (Checkout wAllOk "r" (some "b") (some 5) []).2 = [] :=
  checkout_arg_error_before_effects wAllOk "r" (some "b") (some 5)
    (Or.inl ⟨by decide, by decide⟩)


/-- C10: a zero pull-request number is falsy, so with a non-empty branch
and `pull = 0` no argument error is raised and the run is identical to a
run with no pull argument at all (in particular the fetched ref is the
branch); with `pull = 0` and no branch, the argument error is raised. -/
theorem checkout_pull_zero (w : World) (repo b : String) (hb : b ≠ "") (t : List Op) :
    Checkout w repo (some b) (some 0) t = Checkout w repo (some b) none t ∧
    (Checkout w repo (some b) (some 0) t).1 ≠ Except.error BErr.badArgs ∧
    (w.ok (Op.gitInit repo) = true →
      Op.gitFetch (github repo) b ∈ (Checkout w repo (some b) (some 0) t).2) ∧
    (Checkout w repo none (some 0) []).1 = Except.error BErr.badArgs := by
  have h1 : truthyStr (some b) = true := by simp [truthyStr, hb]
  have h0 : truthyInt (some 0) = false := by decide
  have hvalid : ¬ truthyStr (some b) = truthyInt (some 0) := by
    rw [h1, h0]
    simp
  have hchain : Checkout w repo (some b) (some 0) t =
      M.bind (M.step w (Op.gitInit repo)) (fun _ =>
      M.bind (M.emit (Op.chdir repo)) (fun _ =>
      M.bind (M.step w (Op.gitFetch (github repo) b)) (fun _ =>
      M.step w Op.gitCheckout))) t := by
    unfold Checkout
    rw [if_neg hvalid, h0]
    simp
  have hchain2 : Checkout w repo (some b) none t =
      M.bind (M.step w (Op.gitInit repo)) (fun _ =>
      M.bind (M.emit (Op.chdir repo)) (fun _ =>
      M.bind (M.step w (Op.gitFetch (github repo) b)) (fun _ =>
      M.step w Op.gitCheckout))) t := by
    unfold Checkout
    rw [if_neg (by rw [h1]; simp [truthyInt])]
    simp [truthyInt]
  refine ⟨by rw [hchain, hchain2], checkout_no_badargs_of_valid w repo (some b) (some 0) t hvalid,
    ?_, ?_⟩
  · intro hok
    rw [hchain, M.bind_eq_of_ok (M.step_eq_ok t hok), M.bind_eq_of_ok (M.emit_eq _ _)]
    cases hf : w.ok (Op.gitFetch (github repo) b) with
    | true =>
      rw [M.bind_eq_of_ok (M.step_eq_ok _ hf)]
      rw [M.step_trace]
      simp
    | false =>
      rw [M.bind_eq_of_err (M.step_eq_err _ hf)]
      simp
  · unfold Checkout
    rw [if_pos (by rw [h0]; rfl)]
    rfl

/-- Witness for `checkout_pull_zero` at `branch = master`, `pull = 0`. -/
theorem checkout_pull_zero_witness :
    Checkout wAllOk "r" (some "master") (some 0) [] =
      Checkout wAllOk "r" (some "master") none [] ∧
    (Checkout wAllOk "r" (some "master") (some 0) []).1 ≠ Except.error BErr.badArgs ∧
    (wAllOk.ok (Op.gitInit "r") = true →
      Op.gitFetch (github "r") "master" ∈ (Checkout wAllOk "r" (some "master") (some 0) []).2) ∧
    (Checkout wAllOk "r" none (some 0) []).1 = Except.error BErr.badArgs :=
  checkout_pull_zero wAllOk "r" "master" (by decide) []

/-- The PR-variant `latest` path decomposes as the fixed
`directory`-scoped prefix followed by a remainder, whenever the job name
is not an absolute path. -/
theorem latest_split (job : String) (hj : startsWithSlash job = false) :
    ∃ r, (pjoin prBase ["directory", job, "latest-build.txt"]).data =
      ("gs://kubernetes-jenkins/pr-logs/directory" : String).data ++ r := by
  have e1 : pjoin2 prBase "directory" = "gs://kubernetes-jenkins/pr-logs/directory" := by decide
  have hA : ((("gs://kubernetes-jenkins/pr-logs/directory" : String) == "") ||
      endsWithSlash "gs://kubernetes-jenkins/pr-logs/directory") = false := by decide
  have hl : startsWithSlash "latest-build.txt" = false := by decide
  have e2 : pjoin2 "gs://kubernetes-jenkins/pr-logs/directory" job =
      "gs://kubernetes-jenkins/pr-logs/directory" ++ "/" ++ job := by
    unfold pjoin2
    rw [hj, hA]
    simp
  simp only [pjoin, List.foldl]
  rw [e1, e2]
  cases hend : ((("gs://kubernetes-jenkins/pr-logs/directory" ++ "/" ++ job : String) == "") ||
      endsWithSlash ("gs://kubernetes-jenkins/pr-logs/directory" ++ "/" ++ job)) with
  | true =>
    refine ⟨("/" ++ job ++ "latest-build.txt").data, ?_⟩
    unfold pjoin2
    rw [hl, hend]
    simp [String.data_append, List.append_assoc]
  | false =>
    refine ⟨("/" ++ job ++ "/" ++ "latest-build.txt").data, ?_⟩
    unfold pjoin2
    rw [hl, hend]
    simp [String.data_append, List.append_assoc]

/-- The PR-variant `build_latest` path decomposes as the fixed
`pull`-scoped prefix followed by a remainder, whenever neither the pull
string nor the job name is an absolute path. -/
theorem build_latest_split (job pull : String) (hj : startsWithSlash job = false)
    (hp : startsWithSlash pull = false) :
    ∃ r, (pjoin prBase ["pull", pull, job, "latest-build.txt"]).data =
      ("gs://kubernetes-jenkins/pr-logs/pull" : String).data ++ r := by
  have e1 : pjoin2 prBase "pull" = "gs://kubernetes-jenkins/pr-logs/pull" := by decide
  have hB : ((("gs://kubernetes-jenkins/pr-logs/pull" : String) == "") ||
      endsWithSlash "gs://kubernetes-jenkins/pr-logs/pull") = false := by decide
  have hl : startsWithSlash "latest-build.txt" = false := by decide
  have e2 : pjoin2 "gs://kubernetes-jenkins/pr-logs/pull" pull =
      "gs://kubernetes-jenkins/pr-logs/pull" ++ "/" ++ pull := by
    unfold pjoin2
    rw [hp, hB]
    simp
  simp only [pjoin, List.foldl]
  rw [e1, e2]
  cases h3 : ((("gs://kubernetes-jenkins/pr-logs/pull" ++ "/" ++ pull : String) == "") ||
      endsWithSlash ("gs://kubernetes-jenkins/pr-logs/pull" ++ "/" ++ pull)) with
  | true =>
    have e3 : pjoin2 ("gs://kubernetes-jenkins/pr-logs/pull" ++ "/" ++ pull) job =
        "gs://kubernetes-jenkins/pr-logs/pull" ++ "/" ++ pull ++ job := by
      unfold pjoin2
      rw [hj, h3]
      simp
    rw [e3]
    cases h4 : ((("gs://kubernetes-jenkins/pr-logs/pull" ++ "/" ++ pull ++ job : String) == "") ||
        endsWithSlash ("gs://kubernetes-jenkins/pr-logs/pull" ++ "/" ++ pull ++ job)) with
    | true =>
      refine ⟨("/" ++ pull ++ job ++ "latest-build.txt").data, ?_⟩
      unfold pjoin2
      rw [hl, h4]
      simp [String.data_append, List.append_assoc]
    | false =>
      refine ⟨("/" ++ pull ++ job ++ "/" ++ "latest-build.txt").data, ?_⟩
      unfold pjoin2
      rw [hl, h4]
      simp [String.data_append, List.append_assoc]
  | false =>
    have e3 : pjoin2 ("gs://kubernetes-jenkins/pr-logs/pull" ++ "/" ++ pull) job =
        "gs://kubernetes-jenkins/pr-logs/pull" ++ "/" ++ pull ++ "/" ++ job := by
      unfold pjoin2
      rw [hj, h3]
      simp
    rw [e3]
    cases h4 : ((("gs://kubernetes-jenkins/pr-logs/pull" ++ "/" ++ pull ++ "/" ++ job : String) == "") ||
        endsWithSlash ("gs://kubernetes-jenkins/pr-logs/pull" ++ "/" ++ pull ++ "/" ++ job)) with
    | true =>
      refine ⟨("/" ++ pull ++ "/" ++ job ++ "latest-build.txt").data, ?_⟩
      unfold pjoin2
      rw [hl, h4]
      simp [String.data_append, List.append_assoc]
    | false =>
      refine ⟨("/" ++ pull ++ "/" ++ job ++ "/" ++ "latest-build.txt").data, ?_⟩
      unfold pjoin2
      rw [hl, h4]
      simp [String.data_append, List.append_assoc]

/-- The two PR-variant pointer paths differ: they extend the distinct
fixed prefixes `pr-logs/directory` and `pr-logs/pull`. -/
theorem pr_latest_ne (job pull : String) (hj : startsWithSlash job = false)
    (hp : startsWithSlash pull = false) :
    pjoin prBase ["directory", job, "latest-build.txt"] ≠
    pjoin prBase ["pull", pull, job, "latest-build.txt"] := by
  intro h
  obtain ⟨r1, e1⟩ := latest_split job hj
  obtain ⟨r2, e2⟩ := build_latest_split job pull hj hp
  have hd : ("gs://kubernetes-jenkins/pr-logs/directory" : String).data ++ r1 =
      ("gs://kubernetes-jenkins/pr-logs/pull" : String).data ++ r2 := by
    rw [← e1, ← e2, h]
  have h33 := congrArg (List.take 33) hd
  rw [List.take_append_of_le_length (by decide),
      List.take_append_of_le_length (by decide)] at h33
  exact absurd h33 (by decide)

/-- C3 (amended): for every job name not beginning with `'/'`, build id
and pull-request number, the CI variant has `latest = build_latest` and a
null `build_link`, while the PR variant has `latest ≠ build_latest` and a
non-null `build_link`.  The proviso on the job name is forced by
`os.path.join`: an absolute job name resets the join and collapses the two
PR pointer paths.  The pull string is `str(pull)` of an integer and hence
never begins with `'/'`; the hypothesis records just that. -/
theorem path_variants (job build pull : String) (hj : startsWithSlash job = false)
    (hp : startsWithSlash pull = false) :
    (CIPath job build).latest = (CIPath job build).build_latest ∧
    (CIPath job build).build_link = none ∧
    (PRPath job build pull).latest ≠ (PRPath job build pull).build_latest ∧
    (PRPath job build pull).build_link ≠ none := by
  refine ⟨rfl, rfl, ?_, by simp [PRPath]⟩
  exact pr_latest_ne job pull hj hp

/-- Counterexample to C3 as stated: for the job name `/x` (an absolute
path component), the PR variant's `latest` and `build_latest` coincide,
refuting the unconditional claim that they are always distinct. -/
theorem path_variants_counterexample :
    (PRPath "/x" "b" "5").latest = (PRPath "/x" "b" "5").build_latest ∧
    (PRPath "/x" "b" "5").latest = "/x/latest-build.txt" := by
  constructor
  · decide
  · decide

/-- Witness for `path_variants` at an ordinary job name. -/
theorem path_variants_witness :
    (CIPath "j" "42").latest = (CIPath "j" "42").build_latest ∧
    (CIPath "j" "42").build_link = none ∧
    (PRPath "j" "42" "5").latest ≠ (PRPath "j" "42" "5").build_latest ∧
    (PRPath "j" "42" "5").build_link ≠ none :=
  path_variants "j" "42" "5" (by decide) (by decide)

/-- Pointwise value of `os.environ[k] = v`. -/
theorem Env.set_eval (e : Env) (k v k' : String) :
    Env.set e k v k' = if k' = k then some v else e k' := rfl

/-- Pointwise value of `os.environ.setdefault(k, v)`. -/
theorem Env.setdefault_eval (e : Env) (k v k' : String) :
    Env.setdefault e k v k' = if k' = k then some ((e k).getD v) else e k' := by
  unfold Env.setdefault Env.set
  cases h : e k with
  | some w' =>
    by_cases hk : k' = k
    · subst hk
      rw [h]
      simp [h]
    · simp [hk]
  | none =>
    by_cases hk : k' = k
    · subst hk
      simp
    · simp [hk]

/-- Successful run of the post-`HOME` body of `SetupCredentials`. -/
theorem setupCredsWithHome_ok (w : World) (cwd : String) (env : Env) (home : String)
    (h1 : w.isfile ((setdefaultCreds env home "JENKINS_GCE_SSH_PRIVATE_KEY_FILE").getD "") = true)
    (h2 : w.isfile ((setdefaultCreds env home "GOOGLE_APPLICATION_CREDENTIALS").getD "") = true)
    (hgc : w.ok (Op.gcloudActivate
      ((setdefaultCreds env home "GOOGLE_APPLICATION_CREDENTIALS").getD "")) = true)
    (t : List Op) :
    setupCredsWithHome w cwd env home t =
      (Except.ok (Env.set (Env.set (Env.set (setdefaultCreds env home) "WORKSPACE" cwd)
          "HOME" cwd) "CLOUDSDK_CONFIG" (cwd ++ "/.config/gcloud")),
       t ++ [Op.gcloudActivate ((setdefaultCreds env home "GOOGLE_APPLICATION_CREDENTIALS").getD "")]) := by
  unfold setupCredsWithHome
  rw [if_neg (by simp [h1]), if_neg (by simp [h2])]
  rw [M.bind_eq_of_ok (M.step_eq_ok t hgc)]
  rfl

/-- Run of the post-`HOME` body when the GCE key file is missing. -/
theorem setupCredsWithHome_err_gce (w : World) (cwd : String) (env : Env) (home : String)
    (h1 : w.isfile ((setdefaultCreds env home "JENKINS_GCE_SSH_PRIVATE_KEY_FILE").getD "") = false)
    (t : List Op) :
    setupCredsWithHome w cwd env home t =
      (Except.error (BErr.missingCred ((setdefaultCreds env home "JENKINS_GCE_SSH_PRIVATE_KEY_FILE").getD "")), t) := by
  unfold setupCredsWithHome
  rw [if_pos h1]
  rfl

/-- Run of the post-`HOME` body when the service-account file is missing. -/
theorem setupCredsWithHome_err_sa (w : World) (cwd : String) (env : Env) (home : String)
    (h1 : w.isfile ((setdefaultCreds env home "JENKINS_GCE_SSH_PRIVATE_KEY_FILE").getD "") = true)
    (h2 : w.isfile ((setdefaultCreds env home "GOOGLE_APPLICATION_CREDENTIALS").getD "") = false)
    (t : List Op) :
    setupCredsWithHome w cwd env home t =
      (Except.error (BErr.missingCred ((setdefaultCreds env home "GOOGLE_APPLICATION_CREDENTIALS").getD "")), t) := by
  unfold setupCredsWithHome
  rw [if_neg (by simp [h1]), if_pos h2]
  rfl

/-- Run of the post-`HOME` body when the gcloud activation fails. -/
theorem setupCredsWithHome_err_gcloud (w : World) (cwd : String) (env : Env) (home : String)
    (h1 : w.isfile ((setdefaultCreds env home "JENKINS_GCE_SSH_PRIVATE_KEY_FILE").getD "") = true)
    (h2 : w.isfile ((setdefaultCreds env home "GOOGLE_APPLICATION_CREDENTIALS").getD "") = true)
    (hgc : w.ok (Op.gcloudActivate
      ((setdefaultCreds env home "GOOGLE_APPLICATION_CREDENTIALS").getD "")) = false)
    (t : List Op) :
    setupCredsWithHome w cwd env home t =
      (Except.error (BErr.procFail (Op.gcloudActivate
        ((setdefaultCreds env home "GOOGLE_APPLICATION_CREDENTIALS").getD ""))),
       t ++ [Op.gcloudActivate ((setdefaultCreds env home "GOOGLE_APPLICATION_CREDENTIALS").getD "")]) := by
  unfold setupCredsWithHome
  rw [if_neg (by simp [h1]), if_neg (by simp [h2])]
  rw [M.bind_eq_of_err (M.step_eq_err t hgc)]

/-- C9: for every credential path variable that already has a value before
`SetupCredentials` runs, the value is unchanged after a successful setup,
and a variable that was absent receives exactly the computed
home-directory default. -/
theorem setup_credentials_preserves_overrides (w : World) (cwd : String) (env : Env)
    (t : List Op) (k : String) (hk : k ∈ credentialVars)
    (hok : exceptOk (SetupCredentials w cwd env t).1 = true) :
    (∀ v, env k = some v → envGet (SetupCredentials w cwd env t).1 k = some v) ∧
    (∀ h0, env "HOME" = some h0 → env k = none →
      envGet (SetupCredentials w cwd env t).1 k = some (credDefault h0 k)) := by
  rcases hh : env "HOME" with _ | h0
  · unfold SetupCredentials at hok
    rw [hh] at hok
    exact absurd hok (by simp [M.throw, exceptOk])
  · have hrun : SetupCredentials w cwd env = setupCredsWithHome w cwd env h0 := by
      unfold SetupCredentials
      rw [hh]
    rw [hrun] at hok ⊢
    cases hb1 : w.isfile ((setdefaultCreds env h0 "JENKINS_GCE_SSH_PRIVATE_KEY_FILE").getD "") with
    | false =>
      rw [setupCredsWithHome_err_gce w cwd env h0 hb1 t] at hok
      exact absurd hok (by simp [exceptOk])
    | true =>
      cases hb2 : w.isfile ((setdefaultCreds env h0 "GOOGLE_APPLICATION_CREDENTIALS").getD "") with
      | false =>
        rw [setupCredsWithHome_err_sa w cwd env h0 hb1 hb2 t] at hok
        exact absurd hok (by simp [exceptOk])
      | true =>
        cases hgc : w.ok (Op.gcloudActivate
            ((setdefaultCreds env h0 "GOOGLE_APPLICATION_CREDENTIALS").getD "")) with
        | false =>
          rw [setupCredsWithHome_err_gcloud w cwd env h0 hb1 hb2 hgc t] at hok
          exact absurd hok (by simp [exceptOk])
        | true =>
          rw [setupCredsWithHome_ok w cwd env h0 hb1 hb2 hgc t]
          simp only [envGet]
          simp only [credentialVars, List.mem_cons, List.mem_singleton,
            List.not_mem_nil, or_false] at hk
          rcases hk with rfl | rfl | rfl | rfl | rfl <;>
            exact ⟨fun v hv => by
                simp [Env.set_eval, Env.setdefault_eval, setdefaultCreds, hv],
              fun h0' hh' hnone => by
                injection hh' with hh2
                subst hh2
                simp [Env.set_eval, Env.setdefault_eval, setdefaultCreds, credDefault, hnone]⟩

/-- Witness for `setup_credentials_preserves_overrides`: an externally
overridden AWS key path survives a successful setup unchanged. -/
theorem setup_credentials_preserves_overrides_witness :
    envGet (SetupCredentials wAllFiles "/cwd" envCred []).1
      "JENKINS_AWS_SSH_PRIVATE_KEY_FILE" = some "/custom/aws-key" :=
  (setup_credentials_preserves_overrides wAllFiles "/cwd" envCred []
      "JENKINS_AWS_SSH_PRIVATE_KEY_FILE" (by simp [credentialVars]) (by decide)).1
    "/custom/aws-key" (by decide)

/-- C1 (code bug): in a run where checkout and credential setup succeed
and the job runner exits nonzero, the orchestrator does run the full
finish sequence — result-history append, finished-record upload and
build-log upload all appear in the trace — but the process exit status is
0, not nonzero: `Bootstrap` catches the runner's `CalledProcessError`,
returns normally, and the `__main__` block never calls `sys.exit`, so the
job failure is not propagated to the exit code. -/
theorem job_failure_exit_code_is_zero :
    wJobFail.ok (Op.runJob "j") = false ∧
    mainExit wJobFail envHome "j" "r" (some "b") none = 0 ∧
    (CIPath "j" "42").result_cache = "gs://kubernetes-jenkins/logs/j/jobResultsCache.json" ∧
    (CIPath "j" "42").finished = "gs://kubernetes-jenkins/logs/j/42/finished.json" ∧
    (CIPath "j" "42").build_log = "gs://kubernetes-jenkins/logs/j/42/build-log.txt" ∧
    Op.gsCat "gs://kubernetes-jenkins/logs/j/jobResultsCache.json" ∈
      (BootstrapRun wJobFail envHome "j" "r" (some "b") none).2 ∧
    Op.uploadCache "gs://kubernetes-jenkins/logs/j/jobResultsCache.json"
        [buildEntry "42" "unknown" false] ∈
      (BootstrapRun wJobFail envHome "j" "r" (some "b") none).2 ∧
    Op.uploadFinished "gs://kubernetes-jenkins/logs/j/42/finished.json"
        ⟨"FAILURE", false, none⟩ ∈
      (BootstrapRun wJobFail envHome "j" "r" (some "b") none).2 ∧
    Op.copyFile "gs://kubernetes-jenkins/logs/j/42/build-log.txt" "/workspace/build-log.txt" ∈
      (BootstrapRun wJobFail envHome "j" "r" (some "b") none).2 := by
  have htrace : (BootstrapRun wJobFail envHome "j" "r" (some "b") none).2 =
      [Op.gitInit "r", Op.chdir "r", Op.gitFetch "https://github.com/r" "b", Op.gitCheckout,
       Op.gcloudActivate "/h/service-account.json",
       Op.uploadStarted "gs://kubernetes-jenkins/logs/j/42/started.json",
       Op.runJob "j",
       Op.uploadText "gs://kubernetes-jenkins/logs/j/latest-build.txt" "42",
       Op.gsCat "gs://kubernetes-jenkins/logs/j/jobResultsCache.json",
       Op.uploadCache "gs://kubernetes-jenkins/logs/j/jobResultsCache.json"
         [buildEntry "42" "unknown" false],
       Op.uploadFinished "gs://kubernetes-jenkins/logs/j/42/finished.json" ⟨"FAILURE", false, none⟩,
       Op.copyFile "gs://kubernetes-jenkins/logs/j/42/build-log.txt" "/workspace/build-log.txt"] := rfl
  refine ⟨rfl, rfl, by decide, by decide, by decide, ?_, ?_, ?_, ?_⟩ <;>
    rw [htrace] <;> simp

/-- C7 (code bug): the metadata probe of `Finish` joins `metadata.json`
onto `paths.artifacts`, the REMOTE object-store path, instead of the local
artifact directory.  In a run where the local `_artifacts/metadata.json`
exists and parses as a well-formed non-empty JSON object, the uploaded
finished record still carries no metadata field: the probed path is the
`gs://` string, which is not a local file. -/
theorem finish_metadata_never_merged :
    wMetaLocal.isdir "_artifacts" = true ∧
    wMetaLocal.isfile (pjoin2 "_artifacts" "metadata.json") = true ∧
    wMetaLocal.fileJson (pjoin2 "_artifacts" "metadata.json") =
      some (Json.obj [("k", Json.num 1)]) ∧
    (Json.obj [("k", Json.num 1)]).truthy = true ∧
    (Json.obj [("k", Json.num 1)]).isDict = true ∧
    pjoin2 (CIPath "j" "42").artifacts "metadata.json" =
      "gs://kubernetes-jenkins/logs/j/42/artifacts/metadata.json" ∧
    wMetaLocal.isfile "gs://kubernetes-jenkins/logs/j/42/artifacts/metadata.json" = false ∧
    finishMetadata wMetaLocal (CIPath "j" "42").artifacts = none ∧
    Op.uploadFinished "gs://kubernetes-jenkins/logs/j/42/finished.json"
        ⟨"SUCCESS", true, none⟩ ∈
      (BootstrapRun wMetaLocal envHome "j" "r" (some "b") none).2 := by
  have htrace : (BootstrapRun wMetaLocal envHome "j" "r" (some "b") none).2 =
      [Op.gitInit "r", Op.chdir "r", Op.gitFetch "https://github.com/r" "b", Op.gitCheckout,
       Op.gcloudActivate "/h/service-account.json",
       Op.uploadStarted "gs://kubernetes-jenkins/logs/j/42/started.json",
       Op.runJob "j",
       Op.uploadArtifacts "gs://kubernetes-jenkins/logs/j/42/artifacts" "_artifacts",
       Op.uploadText "gs://kubernetes-jenkins/logs/j/latest-build.txt" "42",
       Op.gsCat "gs://kubernetes-jenkins/logs/j/jobResultsCache.json",
       Op.uploadCache "gs://kubernetes-jenkins/logs/j/jobResultsCache.json"
         [buildEntry "42" "unknown" true],
       Op.uploadFinished "gs://kubernetes-jenkins/logs/j/42/finished.json" ⟨"SUCCESS", true, none⟩,
       Op.copyFile "gs://kubernetes-jenkins/logs/j/42/build-log.txt" "/workspace/build-log.txt"] := rfl
  refine ⟨rfl, by decide, rfl, by decide, by decide, by decide, by decide, rfl, ?_⟩
  rw [htrace]
  simp


/-- Any error escaping `Version` is the version-script process failure,
which is not a checkout or credential-setup error. -/
theorem version_err {w : World} {t : List Op} {e : BErr}
    (h : (Version w t).1 = Except.error e) : BErr.fromCheckoutOrSetup e = false := by
  unfold Version at h
  split at h
  · exact absurd (M.pure_err h) id
  · split at h
    · refine M.bind_err (P := fun e => BErr.fromCheckoutOrSetup e = false) h
        (fun e1 he1 => by rw [M.step_err he1]; rfl)
        (fun a t1 e1 he1 => absurd (M.pure_err he1) id)
    · exact absurd (M.pure_err h) id

/-- Any error escaping `AppendBuild` is the history-upload process
failure, which is not a checkout or credential-setup error. -/
theorem appendBuild_err {w : World} {path build version : String} {passed : Bool}
    {t : List Op} {e : BErr}
    (h : (AppendBuild w path build version passed t).1 = Except.error e) :
    BErr.fromCheckoutOrSetup e = false := by
  refine M.bind_err (P := fun e => BErr.fromCheckoutOrSetup e = false) h
    (fun e1 he1 => absurd (M.emit_err he1) id)
    (fun a t1 e1 he1 => by rw [M.step_err he1]; rfl)

/-- Any error escaping `Finish` is the process failure of one of its
upload commands, none of which is a checkout or credential-setup error. -/
theorem finish_err {w : World} {paths : PathSet} {s : Bool}
    {art build version : String} {t : List Op} {e : BErr}
    (h : (Finish w paths s art build version t).1 = Except.error e) :
    BErr.fromCheckoutOrSetup e = false := by
  unfold Finish at h
  refine M.bind_err (P := fun e => BErr.fromCheckoutOrSetup e = false) h
    (fun e1 he1 => ?_) (fun a1 t1 e1 he1 => ?_)
  · revert he1
    split
    · intro he1
      rw [M.step_err he1]
      rfl
    · intro he1
      exact absurd (M.pure_err he1) id
  · refine M.bind_err (P := fun e => BErr.fromCheckoutOrSetup e = false) he1
      (fun e2 he2 => ?_) (fun a2 t2 e2 he2 => ?_)
    · revert he2
      split
      · intro he2
        rw [M.step_err he2]
        rfl
      · intro he2
        refine M.bind_err (P := fun e => BErr.fromCheckoutOrSetup e = false) he2
          (fun e3 he3 => by rw [M.step_err he3]; rfl)
          (fun a3 t3 e3 he3 => by rw [M.step_err he3]; rfl)
    · refine M.bind_err (P := fun e => BErr.fromCheckoutOrSetup e = false) he2
        (fun e3 he3 => ?_) (fun a3 t3 e3 he3 => ?_)
      · rcases hbl : paths.build_link with _ | link
        · rw [hbl] at he3
          exact absurd (M.pure_err he3) id
        · rw [hbl] at he3
          rw [M.step_err he3]
          rfl
      · refine M.bind_err (P := fun e => BErr.fromCheckoutOrSetup e = false) he3
          (fun e4 he4 => appendBuild_err he4) (fun a4 t4 e4 he4 => ?_)
        refine M.bind_err (P := fun e => BErr.fromCheckoutOrSetup e = false) he4
          (fun e5 he5 => ?_) (fun a5 t5 e5 he5 => by rw [M.step_err he5]; rfl)
        rcases hbrc : paths.build_result_cache with _ | pth
        · rw [hbrc] at he5
          exact absurd (M.pure_err he5) id
        · rw [hbrc] at he5
          exact appendBuild_err he5

/-- Any error escaping the post-setup tail of the orchestration — started
record, job runner, finish sequence, build-log copy — is not a checkout
or credential-setup error. -/
theorem afterSetup_err {w : World} {job : String} {paths : PathSet}
    {build version : String} {t : List Op} {e : BErr}
    (h : (bootstrapAfterSetup w job paths build version t).1 = Except.error e) :
    BErr.fromCheckoutOrSetup e = false := by
  refine M.bind_err (P := fun e => BErr.fromCheckoutOrSetup e = false) h
    (fun e1 he1 => by rw [M.step_err he1]; rfl) (fun a1 t1 e1 he1 => ?_)
  refine M.bind_err (P := fun e => BErr.fromCheckoutOrSetup e = false) he1
    (fun e2 he2 => ?_) (fun a2 t2 e2 he2 => ?_)
  · exact M.bind_err (P := fun e => BErr.fromCheckoutOrSetup e = false) he2
      (fun e3 he3 => absurd (M.emit_err he3) id)
      (fun a3 t3 e3 he3 => absurd (M.pure_err he3) id)
  · refine M.bind_err (P := fun e => BErr.fromCheckoutOrSetup e = false) he2
      (fun e3 he3 => finish_err he3)
      (fun a3 t3 e3 he3 => by rw [M.step_err he3]; rfl)

/-- `Checkout` never records a finished-record upload event. -/
theorem checkout_no_finished (w : World) (repo : String) (branch : Option String)
    (pull : Option Int) (t : List Op) (p : String) (rec : FinishedRecord)
    (ht : Op.uploadFinished p rec ∉ t) :
    Op.uploadFinished p rec ∉ (Checkout w repo branch pull t).2 := by
  intro hmem
  unfold Checkout at hmem
  split at hmem
  · exact ht hmem
  · rcases M.bind_mem hmem with h1 | ⟨a1, _, h1⟩
    · rw [M.step_trace] at h1
      rcases List.mem_append.mp h1 with h | h
      · exact ht h
      · simp at h
    · rw [M.step_trace] at h1
      rcases M.bind_mem h1 with h2 | ⟨a2, _, h2⟩
      · rw [M.emit_eq] at h2
        rcases List.mem_append.mp h2 with h | h
        · rcases List.mem_append.mp h with h' | h'
          · exact ht h'
          · simp at h'
        · simp at h
      · rw [M.emit_eq] at h2
        rcases M.bind_mem h2 with h3 | ⟨a3, _, h3⟩
        · rw [M.step_trace] at h3
          rcases List.mem_append.mp h3 with h | h
          · rcases List.mem_append.mp h with h' | h'
            · rcases List.mem_append.mp h' with h'' | h''
              · exact ht h''
              · simp at h''
            · simp at h'
          · simp at h
        · rw [M.step_trace] at h3
          rw [M.step_trace] at h3
          rcases List.mem_append.mp h3 with h | h
          · rcases List.mem_append.mp h with h' | h'
            · rcases List.mem_append.mp h' with h'' | h''
              · rcases List.mem_append.mp h'' with h3' | h3'
                · exact ht h3'
                · simp at h3'
              · simp at h''
            · simp at h'
          · simp at h

/-- `Version` never records a finished-record upload event. -/
theorem version_no_finished (w : World) (t : List Op) (p : String) (rec : FinishedRecord)
    (ht : Op.uploadFinished p rec ∉ t) :
    Op.uploadFinished p rec ∉ (Version w t).2 := by
  intro hmem
  unfold Version at hmem
  by_cases h1 : w.isfile "version" = true
  · rw [if_pos h1] at hmem
    exact ht hmem
  · rw [if_neg h1] at hmem
    by_cases h2 : w.isfile "hack/lib/version.sh" = true
    · rw [if_pos h2] at hmem
      rcases M.bind_mem hmem with hm | ⟨a1, _, hm⟩
      · rw [M.step_trace] at hm
        rcases List.mem_append.mp hm with h | h
        · exact ht h
        · simp at h
      · rw [M.step_trace] at hm
        rw [M.pure_trace] at hm
        rcases List.mem_append.mp hm with h | h
        · exact ht h
        · simp at h
    · rw [if_neg h2] at hmem
      exact ht hmem

/-- `SetupCredentials` never records a finished-record upload event. -/
theorem setup_no_finished (w : World) (cwd : String) (env : Env) (t : List Op)
    (p : String) (rec : FinishedRecord)
    (ht : Op.uploadFinished p rec ∉ t) :
    Op.uploadFinished p rec ∉ (SetupCredentials w cwd env t).2 := by
  intro hmem
  unfold SetupCredentials at hmem
  rcases hh : env "HOME" with _ | home
  · rw [hh] at hmem
    exact ht hmem
  · rw [hh] at hmem
    replace hmem : Op.uploadFinished p rec ∈ (setupCredsWithHome w cwd env home t).2 := hmem
    unfold setupCredsWithHome at hmem
    by_cases hb1 : w.isfile ((setdefaultCreds env home "JENKINS_GCE_SSH_PRIVATE_KEY_FILE").getD "") = false
    · rw [if_pos hb1] at hmem
      exact ht hmem
    · rw [if_neg hb1] at hmem
      by_cases hb2 : w.isfile ((setdefaultCreds env home "GOOGLE_APPLICATION_CREDENTIALS").getD "") = false
      · rw [if_pos hb2] at hmem
        exact ht hmem
      · rw [if_neg hb2] at hmem
        rcases M.bind_mem hmem with hm | ⟨a1, _, hm⟩
        · rw [M.step_trace] at hm
          rcases List.mem_append.mp hm with h | h
          · exact ht h
          · simp at h
        · rw [M.step_trace] at hm
          rw [M.pure_trace] at hm
          rcases List.mem_append.mp hm with h | h
          · exact ht h
          · simp at h

/-- C2: in every run that fails with a checkout or credential-setup error
(the argument `ValueError`, a git process failure, the `HOME` `KeyError`,
a missing-credential `IOError`, or the gcloud activation failure), no
finished record is ever uploaded: the error propagates out of the
orchestrator before the report-finish step is reached. -/
theorem no_finished_upload_on_pre_job_failure (w : World) (env : Env)
    (job repo : String) (branch : Option String) (pull : Option Int) (e : BErr)
    (he : (BootstrapRun w env job repo branch pull).1 = Except.error e)
    (hcs : BErr.fromCheckoutOrSetup e = true) :
    ∀ p rec, Op.uploadFinished p rec ∉ (BootstrapRun w env job repo branch pull).2 := by
  intro p rec hmem
  rcases hc : Checkout w repo branch pull [] with ⟨rc, tc⟩
  cases rc with
  | error e1 =>
    have hb : BootstrapRun w env job repo branch pull = (Except.error e1, tc) := by
      unfold BootstrapRun Bootstrap
      exact M.bind_eq_of_err hc
    rw [hb] at hmem
    have hnc := checkout_no_finished w repo branch pull [] p rec (by simp)
    rw [hc] at hnc
    exact hnc hmem
  | ok a1 =>
    have hb : BootstrapRun w env job repo branch pull =
        bootstrapAfterCheckout w (Build w env).1 job repo (Build w env).2 pull tc := by
      unfold BootstrapRun Bootstrap
      exact M.bind_eq_of_ok hc
    have htc : Op.uploadFinished p rec ∉ tc := by
      have hnc := checkout_no_finished w repo branch pull [] p rec (by simp)
      rw [hc] at hnc
      exact hnc
    rw [hb] at hmem he
    rcases hv : Version w tc with ⟨rv, tv⟩
    cases rv with
    | error e2 =>
      have h2 : bootstrapAfterCheckout w (Build w env).1 job repo (Build w env).2 pull tc =
          (Except.error e2, tv) := by
        unfold bootstrapAfterCheckout
        exact M.bind_eq_of_err hv
      rw [h2] at he
      have he2 : e2 = e := by injection he
      have hvf : BErr.fromCheckoutOrSetup e2 = false := version_err (by rw [hv])
      rw [he2] at hvf
      rw [hvf] at hcs
      exact Bool.noConfusion hcs
    | ok version =>
      have h2 : bootstrapAfterCheckout w (Build w env).1 job repo (Build w env).2 pull tc =
          M.bind (SetupCredentials w repo (Build w env).1) (fun _ =>
            bootstrapAfterSetup w job
              (if truthyInt pull then PRPath job (Build w env).2 (toString (pull.getD 0))
               else CIPath job (Build w env).2)
              (Build w env).2 version) tv := by
        unfold bootstrapAfterCheckout
        exact M.bind_eq_of_ok hv
      rw [h2] at hmem he
      rcases hs : SetupCredentials w repo (Build w env).1 tv with ⟨rs, ts⟩
      cases rs with
      | error e3 =>
        rw [M.bind_eq_of_err hs] at hmem
        have htv : Op.uploadFinished p rec ∉ tv := by
          have hnv := version_no_finished w tc p rec htc
          rw [hv] at hnv
          exact hnv
        have hts : Op.uploadFinished p rec ∉ ts := by
          have hns := setup_no_finished w repo (Build w env).1 tv p rec htv
          rw [hs] at hns
          exact hns
        exact hts hmem
      | ok env2 =>
        rw [M.bind_eq_of_ok hs] at he
        have hfin : BErr.fromCheckoutOrSetup e = false := afterSetup_err he
        rw [hfin] at hcs
        exact Bool.noConfusion hcs

/-- Witness for `no_finished_upload_on_pre_job_failure`: `git fetch`
fails, the run aborts with that process failure, and the finished record
for the build is never uploaded. -/
theorem no_finished_upload_on_pre_job_failure_witness :
    Op.uploadFinished "gs://kubernetes-jenkins/logs/j/42/finished.json"
        ⟨"FAILURE", false, none⟩ ∉
      (BootstrapRun wFetchFail envHome "j" "r" (some "b") none).2 :=
  no_finished_upload_on_pre_job_failure wFetchFail envHome "j" "r" (some "b") none
    (BErr.procFail (Op.gitFetch "https://github.com/r" "b")) rfl rfl
    "gs://kubernetes-jenkins/logs/j/42/finished.json" ⟨"FAILURE", false, none⟩
